import Mathlib

/-!
Shallow embedding of the `auto_hide_overlays` Blender add-on
(`src/__init__.py`) and proofs about its capture/restore engine.

Modelling choices:

* A viewport's overlay surface is a dynamic attribute set: `Overlay` pairs a
  presence map (`hasattr`) with a value map (`getattr` on a present key).
  Reading or writing an attribute that is not present raises in the host
  (`AttributeError` on the RNA struct), so the unguarded accesses of the
  source are modelled in `Except Unit`; guarded accesses (`hasattr` first)
  never error.
* A Python dict (`restore_data`) is an insertion-ordered association list
  `List (String × Bool)`; dict key lookup is `lookupKey`, and
  `for attr, val in restore_data.items()` is a left fold over the list.
* Scene properties are always registered, so `Scene` is a plain structure and
  `getattr(scene, prop, False)` is ordinary field access.
* The playback registry stores object references to overlays; the world of
  viewports is a `List (Option Overlay)` indexed by position, where `none`
  is a closed/invalidated viewport, and a stored reference is an index.
  Touching a dead reference raises, which the source catches (`except: pass`).
-/

inductive Strategy
  | ALL
  | CUSTOM
deriving DecidableEq

structure Scene where
  auto_hide_overlays : Bool
  auto_hide_playback : Bool
  auto_hide_strategy : Strategy
  auto_hide_bones : Bool
  auto_hide_wireframes : Bool
  auto_hide_extras : Bool
  auto_hide_text : Bool
  auto_hide_cursor : Bool
  auto_hide_relationship_lines : Bool

/-- One viewport's overlay flags: `present` is `hasattr`, `val` is the value
of a present attribute. -/
@[ext]
structure Overlay where
  present : String → Bool
  val : String → Bool

/-- Model of `setattr overlay k v` on a present attribute. -/
def setAttr (o : Overlay) (k : String) (v : Bool) : Overlay :=
  { present := o.present, val := fun k2 => if k2 = k then v else o.val k2 }

/-- Python dict lookup `d[k]` / `k in d` on the association-list model. -/
def lookupKey (k : String) : List (String × Bool) → Option Bool
  | [] => none
  | (a, v) :: rest => if a = k then some v else lookupKey k rest

/-- The `properties_to_check` table of `apply_hide`: pairs of
(scene property, overlay attribute). -/
def properties_to_check : List ((Scene → Bool) × String) :=
  [ (Scene.auto_hide_bones, "show_bones"),
    (Scene.auto_hide_wireframes, "show_wireframes"),
    (Scene.auto_hide_extras, "show_extras"),
    (Scene.auto_hide_text, "show_text"),
    (Scene.auto_hide_cursor, "show_cursor"),
    (Scene.auto_hide_relationship_lines, "show_relationship_lines") ]

/-- One iteration of the `for scene_prop, overlay_attr in properties_to_check`
loop in `apply_hide`: if the scene flag is set and the overlay has the
attribute, record its current value and turn it off. -/
def hideStep (scene : Scene) (acc : List (String × Bool) × Overlay)
    (p : (Scene → Bool) × String) : List (String × Bool) × Overlay :=
  if p.1 scene then
    if acc.2.present p.2 then
      (acc.1 ++ [(p.2, acc.2.val p.2)], setAttr acc.2 p.2 false)
    else acc
  else acc

/-- `apply_hide(scene, overlay)`: hides overlays based on scene settings and
returns `(restore_data, restore_global)` together with the mutated overlay.
The `ALL` branch reads and writes `show_overlays` without a `hasattr` probe,
so it errors when that attribute is absent. -/
def apply_hide (scene : Scene) (overlay : Overlay) :
    Except Unit (List (String × Bool) × Bool × Overlay) :=
  match scene.auto_hide_strategy with
  | .ALL =>
      if overlay.present "show_overlays" then
        .ok ([("show_overlays", overlay.val "show_overlays")], true,
          setAttr overlay "show_overlays" false)
      else .error ()
  | .CUSTOM =>
      let r := properties_to_check.foldl (hideStep scene) ([], overlay)
      .ok (r.1, false, r.2)

/-- One iteration of the `for attr, val in restore_data.items()` loop of
`apply_restore`: write the saved value back if the attribute still exists. -/
def restoreStep (o : Overlay) (kv : String × Bool) : Overlay :=
  if o.present kv.1 then setAttr o kv.1 kv.2 else o

/-- `apply_restore(overlay, restore_data, restore_global)`: restores overlays
from the saved data. The global branch writes `show_overlays` guarded only by
dict membership, not by a probe of the overlay, so it errors when the
attribute is absent; the custom branch probes with `hasattr` and never
errors. -/
def apply_restore (overlay : Overlay) (restore_data : List (String × Bool))
    (restore_global : Bool) : Except Unit Overlay :=
  if restore_global then
    match lookupKey "show_overlays" restore_data with
    | some v =>
        if overlay.present "show_overlays" then
          .ok (setAttr overlay "show_overlays" v)
        else .error ()
    | none => .ok overlay
  else .ok (restore_data.foldl restoreStep overlay)

/-- Last value written for key `k` when replaying the pairs of `s` in order,
starting from `d`; used to characterise the restore fold. -/
def lastVal (s : List (String × Bool)) (k : String) (d : Bool) : Bool :=
  s.foldl (fun d kv => if kv.1 = k then kv.2 else d) d

/-- The parts of a Blender `context` that `OT_AutoHideTransform.invoke`
consults: the scene settings, `context.space_data.type` and the space's
overlay. -/
structure Context where
  scene : Scene
  space_type : String
  overlay : Overlay

inductive InvokeResult
  | FINISHED
  | CANCELLED
  | RUNNING_MODAL
deriving DecidableEq

/-- Observable outcome of one `invoke` call: the operator's return set, the
overlay after the call, the operator instance state (`_space_data` set,
`_restore_data`, `_restore_global`), and whether the native transform was
started, a warning was reported, and a modal handler was added. -/
structure InvokeOutcome where
  result : InvokeResult
  overlay : Overlay
  space_data_set : Bool
  restore_data : List (String × Bool)
  restore_global : Bool
  transform_invoked : Bool
  warned : Bool
  modal_added : Bool

/-- `OT_AutoHideTransform.invoke(context, event)`. The feature-off branch
runs the native transform and finishes; the `VIEW_3D` branch captures via
`apply_hide`, runs the native transform and goes modal; any other space type
warns and cancels. An error of `apply_hide` propagates. -/
def OT_AutoHideTransform.invoke (ctx : Context) : Except Unit InvokeOutcome :=
  if ctx.scene.auto_hide_overlays = false then
    .ok { result := .FINISHED, overlay := ctx.overlay, space_data_set := false,
          restore_data := [], restore_global := false, transform_invoked := true,
          warned := false, modal_added := false }
  else if ctx.space_type = "VIEW_3D" then
    match apply_hide ctx.scene ctx.overlay with
    | .ok (rd, rg, o2) =>
        .ok { result := .RUNNING_MODAL, overlay := o2, space_data_set := true,
              restore_data := rd, restore_global := rg, transform_invoked := true,
              warned := false, modal_added := true }
    | .error e => .error e
  else
    .ok { result := .CANCELLED, overlay := ctx.overlay, space_data_set := false,
          restore_data := [], restore_global := false, transform_invoked := false,
          warned := true, modal_added := false }

/-- One entry of `_playback_state["views"]`: the stored overlay reference
(as an index into the world's viewport list) plus the restore data. -/
structure ViewRecord where
  view : Nat
  data : List (String × Bool)
  global : Bool
deriving DecidableEq

/-- The module-level `_playback_state` dict. -/
structure PlaybackState where
  active : Bool
  views : List ViewRecord
deriving DecidableEq

/-- The host world as seen by the playback handlers: whether a window
manager exists, and the list of 3D-view overlay slots (`none` = the
viewport was closed and the stored reference is dead). -/
structure WorldState where
  wm : Bool
  viewports : List (Option Overlay)

/-- The enumeration loop of `_hide_all_views`: walk the viewports, apply the
hide strategy to each live one and append a record. An `apply_hide` error
aborts the loop, keeping the partial state (the exception propagates). -/
def hideViews (scene : Scene) :
    List (Option Overlay) → Nat → List (Option Overlay) → List ViewRecord →
    Except (List (Option Overlay) × List ViewRecord)
      (List (Option Overlay) × List ViewRecord)
  | [], _, doneRev, recs => .ok (doneRev.reverse, recs)
  | none :: rest, i, doneRev, recs =>
      hideViews scene rest (i + 1) (none :: doneRev) recs
  | some o :: rest, i, doneRev, recs =>
      match apply_hide scene o with
      | .ok (rd, rg, o2) =>
          hideViews scene rest (i + 1) (some o2 :: doneRev)
            (recs ++ [{ view := i, data := rd, global := rg }])
      | .error _ => .error (doneRev.reverse ++ some o :: rest, recs)

/-- `_hide_all_views(scene)`: no-op while already active; otherwise mark
active, clear the record list, bail out if there is no window manager, and
hide every live viewport. -/
def _hide_all_views (scene : Scene) (ps : PlaybackState) (w : WorldState) :
    Except (PlaybackState × WorldState) (PlaybackState × WorldState) :=
  if ps.active then .ok (ps, w)
  else if w.wm = false then .ok ({ active := true, views := [] }, w)
  else
    match hideViews scene w.viewports 0 [] [] with
    | .ok (vs, recs) =>
        .ok ({ active := true, views := recs }, { w with viewports := vs })
    | .error (vs, recs) =>
        .error ({ active := true, views := recs }, { w with viewports := vs })

/-- One iteration of the restore loop of `_restore_all_views`: dereference
the stored overlay and try `apply_restore`; any failure (dead reference or
restore error) is caught by the bare `except: pass`. -/
def restoreViewStep (vs : List (Option Overlay)) (r : ViewRecord) :
    List (Option Overlay) :=
  match vs[r.view]? with
  | some (some o) =>
      match apply_restore o r.data r.global with
      | .ok o2 => vs.set r.view (some o2)
      | .error _ => vs
  | _ => vs

/-- `_restore_all_views()`: no-op while not active; otherwise restore every
tracked view, tolerating individual failures, then reset the state. -/
def _restore_all_views (ps : PlaybackState) (w : WorldState) :
    PlaybackState × WorldState :=
  if ps.active = false then (ps, w)
  else
    ({ active := false, views := [] },
     { w with viewports := ps.views.foldl restoreViewStep w.viewports })

/-- Projection of an `invoke` outcome used by concrete evaluations. -/
def outRestoreData (r : Except Unit InvokeOutcome) : List (String × Bool) :=
  match r with
  | .ok out => out.restore_data
  | .error _ => []

/-- Projection of an `invoke` outcome used by concrete evaluations. -/
def outModalAdded (r : Except Unit InvokeOutcome) : Bool :=
  match r with
  | .ok out => out.modal_added
  | .error _ => false

/-- Projection of an `invoke` outcome used by concrete evaluations. -/
def outResult (r : Except Unit InvokeOutcome) : Option InvokeResult :=
  match r with
  | .ok out => some out.result
  | .error _ => none

/-- Projection of an `invoke` outcome used by concrete evaluations. -/
def outOverlay (r : Except Unit InvokeOutcome) : Overlay :=
  match r with
  | .ok out => out.overlay
  | .error _ => { present := fun _ => false, val := fun _ => false }

/-- Concrete overlay with every attribute present and set. -/
def oTrue : Overlay := { present := fun _ => true, val := fun _ => true }

/-- Concrete overlay exposing no attribute at all. -/
def oEmpty : Overlay := { present := fun _ => false, val := fun _ => false }

/-- Concrete overlay of spec Scenario B: only `show_bones` (on) and
`show_text` (off) exist. -/
def oScenB : Overlay :=
  { present := fun k => k = "show_bones" ∨ k = "show_text",
    val := fun k => k = "show_bones" }

/-- Concrete scene: feature on, strategy ALL. -/
def sceneALL : Scene :=
  { auto_hide_overlays := true, auto_hide_playback := false,
    auto_hide_strategy := .ALL, auto_hide_bones := true,
    auto_hide_wireframes := true, auto_hide_extras := true,
    auto_hide_text := false, auto_hide_cursor := false,
    auto_hide_relationship_lines := false }

/-- Concrete scene of spec Scenario B: strategy CUSTOM, hide bones only. -/
def sceneB : Scene :=
  { auto_hide_overlays := true, auto_hide_playback := false,
    auto_hide_strategy := .CUSTOM, auto_hide_bones := true,
    auto_hide_wireframes := false, auto_hide_extras := false,
    auto_hide_text := false, auto_hide_cursor := false,
    auto_hide_relationship_lines := false }

/-- Concrete scene with the transform feature toggle off. -/
def sceneOff : Scene :=
  { auto_hide_overlays := false, auto_hide_playback := false,
    auto_hide_strategy := .ALL, auto_hide_bones := true,
    auto_hide_wireframes := true, auto_hide_extras := true,
    auto_hide_text := false, auto_hide_cursor := false,
    auto_hide_relationship_lines := false }

/-- Gesture context: feature on, ALL strategy, inside a 3D view. -/
def ctxGesture : Context :=
  { scene := sceneALL, space_type := "VIEW_3D", overlay := oTrue }

/-- The same gesture context after the first invoke hid the overlays and
while that first session is still live (its modal handler is running). -/
def ctxGestureSecond : Context :=
  { scene := sceneALL, space_type := "VIEW_3D",
    overlay := outOverlay (OT_AutoHideTransform.invoke ctxGesture) }

/-- Playback batch of spec Scenario C: two tracked viewports, records for
views 0 and 1; view 0 will be closed before the stop handler runs. -/
def psStale : PlaybackState :=
  { active := true,
    views := [ { view := 0, data := [("show_overlays", true)], global := true },
               { view := 1, data := [("show_bones", true)], global := false } ] }

/-- World at playback-stop time in Scenario C: viewport 0 is closed (its
stored reference is dead), viewport 1 is still alive. -/
def wStale : WorldState := { wm := true, viewports := [none, some oTrue] }

theorem setAttr_present (o : Overlay) (k : String) (v : Bool) :
    (setAttr o k v).present = o.present := rfl

theorem setAttr_val_self (o : Overlay) (k : String) (v : Bool) :
    (setAttr o k v).val k = v := by
  simp [setAttr]

theorem setAttr_val_ne (o : Overlay) (k k2 : String) (v : Bool) (h : k2 ≠ k) :
    (setAttr o k v).val k2 = o.val k2 := by
  simp [setAttr, h]

theorem setAttr_setAttr (o : Overlay) (k : String) (v w : Bool) :
    setAttr (setAttr o k v) k w = setAttr o k w := by
  refine Overlay.ext rfl ?_
  funext k2
  by_cases h : k2 = k <;> simp [setAttr, h]

theorem setAttr_self_val (o : Overlay) (k : String) :
    setAttr o k (o.val k) = o := by
  refine Overlay.ext rfl ?_
  funext k2
  by_cases h : k2 = k <;> simp [setAttr, h]

theorem restoreStep_present (o : Overlay) (kv : String × Bool) :
    (restoreStep o kv).present = o.present := by
  unfold restoreStep
  split <;> rfl

theorem restoreStep_val (o : Overlay) (kv : String × Bool) (k : String) :
    (restoreStep o kv).val k =
      if kv.1 = k ∧ o.present kv.1 = true then kv.2 else o.val k := by
  unfold restoreStep
  by_cases hp : o.present kv.1 = true
  · by_cases he : kv.1 = k
    · subst he
      simp [hp, setAttr_val_self]
    · have : k ≠ kv.1 := fun e => he e.symm
      simp [hp, he, setAttr_val_ne _ _ _ _ this]
  · simp [hp]

theorem restoreFold_present (s : List (String × Bool)) (o : Overlay) :
    (s.foldl restoreStep o).present = o.present := by
  induction s generalizing o with
  | nil => rfl
  | cons kv s ih =>
      rw [List.foldl_cons, ih, restoreStep_present]

theorem lastVal_cons (kv : String × Bool) (s : List (String × Bool))
    (k : String) (d : Bool) :
    lastVal (kv :: s) k d = lastVal s k (if kv.1 = k then kv.2 else d) := rfl

theorem restoreFold_val (s : List (String × Bool)) (o : Overlay) (k : String) :
    (s.foldl restoreStep o).val k =
      if o.present k = true then lastVal s k (o.val k) else o.val k := by
  induction s generalizing o with
  | nil =>
      by_cases h : o.present k = true <;> simp [lastVal, h]
  | cons kv s ih =>
      rw [List.foldl_cons, ih, restoreStep_present, restoreStep_val, lastVal_cons]
      by_cases he : kv.1 = k
      · subst he
        by_cases hp : o.present kv.1 = true
        · simp [hp]
        · simp [hp]
      · by_cases hp : o.present k = true
        · simp [hp, he]
        · simp [hp, he]

theorem lastVal_not_mem : ∀ (s : List (String × Bool)) (k : String) (d : Bool),
    k ∉ s.map Prod.fst → lastVal s k d = d := by
  intro s k
  induction s with
  | nil => intro d _; rfl
  | cons kv s ih =>
      intro d h
      simp only [List.map_cons, List.mem_cons, not_or] at h
      have hne : kv.1 ≠ k := fun e => h.1 e.symm
      rw [lastVal_cons, if_neg hne]
      exact ih d h.2

theorem lastVal_const_or_id (s : List (String × Bool)) (k : String) :
    (∀ d, lastVal s k d = d) ∨ (∃ v, ∀ d, lastVal s k d = v) := by
  induction s with
  | nil => exact Or.inl fun d => rfl
  | cons kv s ih =>
      by_cases he : kv.1 = k
      · exact Or.inr ⟨lastVal s k kv.2, fun d => by rw [lastVal_cons, if_pos he]⟩
      · rcases ih with h | ⟨v, h⟩
        · exact Or.inl fun d => by rw [lastVal_cons, if_neg he, h]
        · exact Or.inr ⟨v, fun d => by rw [lastVal_cons, if_neg he, h]⟩

theorem lastVal_lastVal (s : List (String × Bool)) (k : String) (d : Bool) :
    lastVal s k (lastVal s k d) = lastVal s k d := by
  rcases lastVal_const_or_id s k with h | ⟨v, h⟩
  · rw [h, h]
  · rw [h, h]

theorem lastVal_of_lookup : ∀ (s : List (String × Bool)) (k : String) (v : Bool),
    (s.map Prod.fst).Nodup → lookupKey k s = some v → ∀ d, lastVal s k d = v := by
  intro s k v
  induction s with
  | nil => intro _ h; simp [lookupKey] at h
  | cons kv s ih =>
      intro hnd hl d
      simp only [List.map_cons, List.nodup_cons] at hnd
      by_cases he : kv.1 = k
      · rw [show lookupKey k (kv :: s) = some kv.2 by simp [lookupKey, he]] at hl
        cases hl
        rw [lastVal_cons, if_pos he]
        exact lastVal_not_mem s k kv.2 (he ▸ hnd.1)
      · rw [lastVal_cons, if_neg he]
        refine ih hnd.2 ?_ d
        simpa [lookupKey, he] using hl

theorem restoreFold_idem (s : List (String × Bool)) (o : Overlay) :
    s.foldl restoreStep (s.foldl restoreStep o) = s.foldl restoreStep o := by
  refine Overlay.ext ?_ ?_
  · rw [restoreFold_present, restoreFold_present]
  · funext k
    rw [restoreFold_val s (s.foldl restoreStep o) k, restoreFold_present,
      restoreFold_val s o k]
    by_cases h : o.present k = true
    · simp [h, lastVal_lastVal]
    · simp [h]

theorem apply_restore_custom (o : Overlay) (s : List (String × Bool)) :
    apply_restore o s false = .ok (s.foldl restoreStep o) := by
  unfold apply_restore
  rw [if_neg (by simp)]

theorem apply_restore_global_none (o : Overlay) (s : List (String × Bool))
    (hk : lookupKey "show_overlays" s = none) :
    apply_restore o s true = .ok o := by
  unfold apply_restore
  rw [if_pos rfl, hk]

theorem apply_restore_global_some (o : Overlay) (s : List (String × Bool))
    (v : Bool) (hk : lookupKey "show_overlays" s = some v) :
    apply_restore o s true =
      if o.present "show_overlays" = true then
        .ok (setAttr o "show_overlays" v)
      else .error () := by
  unfold apply_restore
  rw [if_pos rfl, hk]

/-- Claim C6: for every snapshot and overlay state, applying `apply_restore`
twice in a row leaves the overlay in the same state as applying it once. -/
theorem apply_restore_idempotent (o : Overlay) (s : List (String × Bool))
    (g : Bool) (o2 : Overlay) (h : apply_restore o s g = .ok o2) :
    apply_restore o2 s g = .ok o2 := by
  cases g with
  | false =>
      rw [apply_restore_custom] at h
      cases h
      rw [apply_restore_custom, restoreFold_idem]
  | true =>
      cases hk : lookupKey "show_overlays" s with
      | none =>
          rw [apply_restore_global_none o s hk] at h
          cases h
          exact apply_restore_global_none o s hk
      | some v =>
          rw [apply_restore_global_some o s v hk] at h
          by_cases hp : o.present "show_overlays" = true
          · rw [if_pos hp] at h
            cases h
            rw [apply_restore_global_some _ s v hk,
              if_pos (show (setAttr o "show_overlays" v).present "show_overlays"
                = true from hp), setAttr_setAttr]
          · rw [if_neg hp] at h
            cases h

/-- Claim C8: with the gesture feature toggle off, invoking the gesture
operator mutates no overlay state and creates no session: it only forwards
the native transform invocation and finishes. -/
theorem invoke_feature_off_passthrough (ctx : Context)
    (h : ctx.scene.auto_hide_overlays = false) :
    OT_AutoHideTransform.invoke ctx =
      .ok { result := .FINISHED, overlay := ctx.overlay, space_data_set := false,
            restore_data := [], restore_global := false,
            transform_invoked := true, warned := false, modal_added := false } := by
  unfold OT_AutoHideTransform.invoke
  rw [if_pos h]

/-- Witness for C8: a concrete context with the toggle off. -/
theorem invoke_feature_off_passthrough_witness :
    ({ scene := sceneOff, space_type := "VIEW_3D", overlay := oTrue } :
      Context).scene.auto_hide_overlays = false ∧
    OT_AutoHideTransform.invoke
        { scene := sceneOff, space_type := "VIEW_3D", overlay := oTrue } =
      .ok { result := .FINISHED, overlay := oTrue, space_data_set := false,
            restore_data := [], restore_global := false,
            transform_invoked := true, warned := false, modal_added := false } :=
  ⟨rfl, invoke_feature_off_passthrough
    { scene := sceneOff, space_type := "VIEW_3D", overlay := oTrue } rfl⟩

/-- Claim C9: with the feature enabled but outside a 3D viewport, the
gesture warns and cancels before any overlay mutation: no session is
created and the native transform is not started. -/
theorem invoke_outside_view3d_cancelled (ctx : Context)
    (hOn : ctx.scene.auto_hide_overlays = true)
    (hSp : ctx.space_type ≠ "VIEW_3D") :
    OT_AutoHideTransform.invoke ctx =
      .ok { result := .CANCELLED, overlay := ctx.overlay, space_data_set := false,
            restore_data := [], restore_global := false,
            transform_invoked := false, warned := true, modal_added := false } := by
  unfold OT_AutoHideTransform.invoke
  rw [if_neg (by rw [hOn]; simp), if_neg hSp]

/-- Witness for C9: a concrete gesture issued from a timeline space. -/
theorem invoke_outside_view3d_cancelled_witness :
    ({ scene := sceneALL, space_type := "TIMELINE", overlay := oTrue } :
      Context).scene.auto_hide_overlays = true ∧
    ({ scene := sceneALL, space_type := "TIMELINE", overlay := oTrue } :
      Context).space_type ≠ "VIEW_3D" ∧
    OT_AutoHideTransform.invoke
        { scene := sceneALL, space_type := "TIMELINE", overlay := oTrue } =
      .ok { result := .CANCELLED, overlay := oTrue, space_data_set := false,
            restore_data := [], restore_global := false,
            transform_invoked := false, warned := true, modal_added := false } :=
  ⟨rfl, by decide,
    invoke_outside_view3d_cancelled
      { scene := sceneALL, space_type := "TIMELINE", overlay := oTrue } rfl
      (by decide)⟩

/-- Counterexample to C2 as stated: the gesture path has no per-key session
guard. With a first gesture session live (its invoke went modal and hid the
overlays, capturing the pre-hide value `true`), a second invoke for the same
viewport is not a no-op: it runs `apply_hide` again, creating a second live
session whose snapshot records the already-hidden value `false`. -/
theorem gesture_second_invoke_recaptures :
    outResult (OT_AutoHideTransform.invoke ctxGesture) = some .RUNNING_MODAL ∧
    outModalAdded (OT_AutoHideTransform.invoke ctxGesture) = true ∧
    outRestoreData (OT_AutoHideTransform.invoke ctxGesture) =
      [("show_overlays", true)] ∧
    outModalAdded (OT_AutoHideTransform.invoke ctxGestureSecond) = true ∧
    outRestoreData (OT_AutoHideTransform.invoke ctxGestureSecond) =
      [("show_overlays", false)] := by
  decide

/-- Claim C2 (amended): only the playback trigger has an idempotence guard.
While `_playback_state.active` is set, a second `_hide_all_views` call is a
complete no-op: no state changes and `apply_hide` is not invoked on any
viewport. -/
theorem playback_second_hide_noop (scene : Scene) (ps : PlaybackState)
    (w : WorldState) (h : ps.active = true) :
    _hide_all_views scene ps w = .ok (ps, w) := by
  unfold _hide_all_views
  rw [if_pos h]

/-- Witness for the amended C2: a concrete active playback state. -/
theorem playback_second_hide_noop_witness :
    ({ active := true, views := [] } : PlaybackState).active = true ∧
    _hide_all_views sceneALL { active := true, views := [] }
        { wm := true, viewports := [some oTrue] } =
      .ok ({ active := true, views := [] },
        { wm := true, viewports := [some oTrue] }) :=
  ⟨rfl, playback_second_hide_noop sceneALL { active := true, views := [] }
    { wm := true, viewports := [some oTrue] } rfl⟩

/-- Counterexample to C7 as stated: under the ALL strategy `apply_hide`
reads `show_overlays` without probing for it, so on an overlay that lacks
the key the access raises instead of being silently skipped. -/
theorem apply_hide_all_missing_key_error :
    apply_hide sceneALL oEmpty = .error () := rfl

/-- Claim C7 (amended): the probe-then-skip discipline holds for every key
of the CUSTOM strategy, in capture and in restore: both are total there.
Only the `show_overlays` access of the ALL strategy is unprobed. -/
theorem apply_hide_restore_custom_total (scene : Scene) (o : Overlay)
    (s : List (String × Bool)) (h : scene.auto_hide_strategy = .CUSTOM) :
    (apply_hide scene o).isOk = true ∧ (apply_restore o s false).isOk = true := by
  constructor
  · unfold apply_hide
    rw [h]
    rfl
  · rw [apply_restore_custom]
    rfl

/-- Witness for the amended C7: Scenario B scene and overlay. -/
theorem apply_hide_restore_custom_total_witness :
    sceneB.auto_hide_strategy = Strategy.CUSTOM ∧
    (apply_hide sceneB oScenB).isOk = true ∧
    (apply_restore oScenB [("show_bones", true)] false).isOk = true :=
  ⟨rfl, apply_hide_restore_custom_total sceneB oScenB [("show_bones", true)] rfl⟩

theorem restoreViewStep_get_ne (vs : List (Option Overlay)) (r : ViewRecord)
    (i : Nat) (h : i ≠ r.view) : (restoreViewStep vs r)[i]? = vs[i]? := by
  cases hx : vs[r.view]? with
  | none => simp [restoreViewStep, hx]
  | some oo =>
      cases oo with
      | none => simp [restoreViewStep, hx]
      | some o =>
          cases hr : apply_restore o r.data r.global with
          | ok o2 =>
              simp only [restoreViewStep, hx, hr]
              exact List.getElem?_set_ne fun e => h e.symm
          | error e => simp [restoreViewStep, hx, hr]

theorem restoreViewStep_get_self (vs : List (Option Overlay)) (r : ViewRecord) :
    (restoreViewStep vs r)[r.view]? =
      match vs[r.view]? with
      | some (some o) =>
          some (some ((apply_restore o r.data r.global).toOption.getD o))
      | x => x := by
  cases hx : vs[r.view]? with
  | none => simp [restoreViewStep, hx]
  | some oo =>
      cases oo with
      | none => simp [restoreViewStep, hx]
      | some o =>
          cases hr : apply_restore o r.data r.global with
          | ok o2 =>
              have hlt : r.view < vs.length := by
                rcases List.getElem?_eq_some.mp hx with ⟨hl, _⟩
                exact hl
              simp only [restoreViewStep, hx, hr]
              rw [List.getElem?_set_eq_of_lt (some o2) hlt]
              simp [Except.toOption]
          | error e =>
              simp [restoreViewStep, hx, hr, Except.toOption]

theorem restoreFoldViews_not_mem : ∀ (views : List ViewRecord)
    (vs : List (Option Overlay)) (i : Nat), i ∉ views.map ViewRecord.view →
    (views.foldl restoreViewStep vs)[i]? = vs[i]? := by
  intro views
  induction views with
  | nil => intro vs i _; rfl
  | cons r rest ih =>
      intro vs i h
      simp only [List.map_cons, List.mem_cons, not_or] at h
      rw [List.foldl_cons, ih (restoreViewStep vs r) i h.2,
        restoreViewStep_get_ne vs r i h.1]

theorem restoreFoldViews_spec : ∀ (views : List ViewRecord)
    (vs : List (Option Overlay)), (views.map ViewRecord.view).Nodup →
    ∀ r ∈ views, (views.foldl restoreViewStep vs)[r.view]? =
      match vs[r.view]? with
      | some (some o) =>
          some (some ((apply_restore o r.data r.global).toOption.getD o))
      | x => x := by
  intro views
  induction views with
  | nil => intro vs _ r hr; exact absurd hr (List.not_mem_nil r)
  | cons r0 rest ih =>
      intro vs hnd r hr
      simp only [List.map_cons, List.nodup_cons] at hnd
      rw [List.foldl_cons]
      rcases List.mem_cons.mp hr with rfl | hr2
      · rw [restoreFoldViews_not_mem rest (restoreViewStep vs r) r.view hnd.1]
        exact restoreViewStep_get_self vs r
      · have hne : r.view ≠ r0.view := by
          intro e
          exact hnd.1 (e ▸ List.mem_map_of_mem ViewRecord.view hr2)
        rw [ih (restoreViewStep vs r0) hnd.2 r hr2,
          restoreViewStep_get_ne vs r0 r.view hne]

/-- Claim C5: when playback stops with the registry active, every tracked
viewport that is still alive is restored (a caught restore failure leaves it
as is), a stale viewport is tolerated and skipped, and afterwards the
registry is empty and the playback state is IDLE — one stale entry never
prevents the restore of the other viewports in the batch. -/
theorem restore_all_views_tolerates_stale (ps : PlaybackState) (w : WorldState)
    (hact : ps.active = true) (hnd : (ps.views.map ViewRecord.view).Nodup) :
    (_restore_all_views ps w).1 = { active := false, views := [] } ∧
    ∀ r ∈ ps.views, (_restore_all_views ps w).2.viewports[r.view]? =
      match w.viewports[r.view]? with
      | some (some o) =>
          some (some ((apply_restore o r.data r.global).toOption.getD o))
      | x => x := by
  unfold _restore_all_views
  rw [if_neg (by rw [hact]; simp)]
  exact ⟨rfl, fun r hr => restoreFoldViews_spec ps.views w.viewports hnd r hr⟩

/-- Witness for C5: Scenario C, a two-viewport batch with viewport 0 closed
before the stop handler runs; the registry still ends empty and idle. -/
theorem restore_all_views_tolerates_stale_witness :
    psStale.active = true ∧ (psStale.views.map ViewRecord.view).Nodup ∧
    (_restore_all_views psStale wStale).1 = { active := false, views := [] } :=
  ⟨rfl, by decide,
    (restore_all_views_tolerates_stale psStale wStale rfl (by decide)).1⟩

theorem hideStep_pos (scene : Scene) (rd : List (String × Bool)) (o : Overlay)
    (p : (Scene → Bool) × String) (h1 : p.1 scene = true)
    (h2 : o.present p.2 = true) :
    hideStep scene (rd, o) p = (rd ++ [(p.2, o.val p.2)], setAttr o p.2 false) := by
  simp [hideStep, h1, h2]

theorem hideStep_skip_present (scene : Scene) (rd : List (String × Bool))
    (o : Overlay) (p : (Scene → Bool) × String) (h2 : ¬ o.present p.2 = true) :
    hideStep scene (rd, o) p = (rd, o) := by
  simp [hideStep, h2]

theorem hideStep_skip_flag (scene : Scene) (rd : List (String × Bool))
    (o : Overlay) (p : (Scene → Bool) × String) (h1 : ¬ p.1 scene = true) :
    hideStep scene (rd, o) p = (rd, o) := by
  simp [hideStep, h1]

theorem hideFold_present : ∀ (props : List ((Scene → Bool) × String))
    (scene : Scene) (rd : List (String × Bool)) (o : Overlay),
    (props.foldl (hideStep scene) (rd, o)).2.present = o.present := by
  intro props scene
  induction props with
  | nil => intro rd o; rfl
  | cons p props ih =>
      intro rd o
      rw [List.foldl_cons]
      by_cases h1 : p.1 scene = true
      · by_cases h2 : o.present p.2 = true
        · rw [hideStep_pos scene rd o p h1 h2, ih, setAttr_present]
        · rw [hideStep_skip_present scene rd o p h2, ih]
      · rw [hideStep_skip_flag scene rd o p h1, ih]

theorem hideFold_split : ∀ (props : List ((Scene → Bool) × String))
    (scene : Scene) (rd : List (String × Bool)) (o : Overlay),
    props.foldl (hideStep scene) (rd, o) =
      (rd ++ (props.foldl (hideStep scene) ([], o)).1,
       (props.foldl (hideStep scene) ([], o)).2) := by
  intro props scene
  induction props with
  | nil => intro rd o; simp
  | cons p props ih =>
      intro rd o
      rw [List.foldl_cons, List.foldl_cons]
      by_cases h1 : p.1 scene = true
      · by_cases h2 : o.present p.2 = true
        · rw [hideStep_pos scene rd o p h1 h2, hideStep_pos scene [] o p h1 h2,
            ih (rd ++ [(p.2, o.val p.2)]) (setAttr o p.2 false),
            ih ([] ++ [(p.2, o.val p.2)]) (setAttr o p.2 false)]
          simp
        · rw [hideStep_skip_present scene rd o p h2,
            hideStep_skip_present scene [] o p h2]
          exact ih rd o
      · rw [hideStep_skip_flag scene rd o p h1, hideStep_skip_flag scene [] o p h1]
        exact ih rd o

theorem hideFold_mem_iff : ∀ (props : List ((Scene → Bool) × String))
    (scene : Scene) (o : Overlay) (k : String),
    (k ∈ (props.foldl (hideStep scene) ([], o)).1.map Prod.fst) ↔
      ∃ p ∈ props, p.2 = k ∧ p.1 scene = true ∧ o.present k = true := by
  intro props scene
  induction props with
  | nil => intro o k; simp
  | cons p props ih =>
      intro o k
      rw [List.foldl_cons]
      by_cases h1 : p.1 scene = true
      · by_cases h2 : o.present p.2 = true
        · rw [hideStep_pos scene [] o p h1 h2,
            hideFold_split props scene ([] ++ [(p.2, o.val p.2)])
              (setAttr o p.2 false)]
          simp only [List.nil_append, List.singleton_append, List.map_cons,
            List.mem_cons]
          rw [ih (setAttr o p.2 false) k]
          constructor
          · rintro (hk | ⟨q, hq, e2, e1, ep⟩)
            · subst hk
              exact ⟨p, Or.inl rfl, rfl, h1, h2⟩
            · rw [setAttr_present] at ep
              exact ⟨q, Or.inr hq, e2, e1, ep⟩
          · rintro ⟨q, hq, e2, e1, ep⟩
            rcases hq with rfl | hq2
            · exact Or.inl e2.symm
            · refine Or.inr ⟨q, hq2, e2, e1, ?_⟩
              rw [setAttr_present]
              exact ep
        · rw [hideStep_skip_present scene [] o p h2, ih o k]
          constructor
          · rintro ⟨q, hq, e2, e1, ep⟩
            exact ⟨q, List.mem_cons_of_mem p hq, e2, e1, ep⟩
          · rintro ⟨q, hq, e2, e1, ep⟩
            rcases List.mem_cons.mp hq with rfl | hq2
            · rw [← e2] at ep
              exact absurd ep h2
            · exact ⟨q, hq2, e2, e1, ep⟩
      · rw [hideStep_skip_flag scene [] o p h1, ih o k]
        constructor
        · rintro ⟨q, hq, e2, e1, ep⟩
          exact ⟨q, List.mem_cons_of_mem p hq, e2, e1, ep⟩
        · rintro ⟨q, hq, e2, e1, ep⟩
          rcases List.mem_cons.mp hq with rfl | hq2
          · exact absurd e1 h1
          · exact ⟨q, hq2, e2, e1, ep⟩

theorem hideFold_custom_spec : ∀ (props : List ((Scene → Bool) × String))
    (scene : Scene), (props.map Prod.snd).Nodup → ∀ (o : Overlay),
    (((props.foldl (hideStep scene) ([], o)).1.map Prod.fst).Nodup) ∧
    (∀ k, k ∈ (props.foldl (hideStep scene) ([], o)).1.map Prod.fst →
        lookupKey k (props.foldl (hideStep scene) ([], o)).1 = some (o.val k) ∧
        (props.foldl (hideStep scene) ([], o)).2.val k = false) ∧
    (∀ k, k ∉ (props.foldl (hideStep scene) ([], o)).1.map Prod.fst →
        (props.foldl (hideStep scene) ([], o)).2.val k = o.val k) := by
  intro props scene
  induction props with
  | nil =>
      intro _ o
      refine ⟨List.nodup_nil, ?_, ?_⟩
      · intro k hk
        simp at hk
      · intro k _
        rfl
  | cons p props ih =>
      intro hnd o
      simp only [List.map_cons, List.nodup_cons] at hnd
      rw [List.foldl_cons]
      by_cases h1 : p.1 scene = true
      · by_cases h2 : o.present p.2 = true
        · rw [hideStep_pos scene [] o p h1 h2,
            hideFold_split props scene ([] ++ [(p.2, o.val p.2)])
              (setAttr o p.2 false)]
          obtain ⟨ihnd, ihlook, ihout⟩ := ih hnd.2 (setAttr o p.2 false)
          have hnotin : p.2 ∉
              ((props.foldl (hideStep scene)
                ([], setAttr o p.2 false)).1.map Prod.fst) := by
            intro hc
            obtain ⟨q, hq, e2, _, _⟩ :=
              (hideFold_mem_iff props scene (setAttr o p.2 false) p.2).mp hc
            exact hnd.1 (e2 ▸ List.mem_map_of_mem Prod.snd hq)
          simp only [List.nil_append, List.singleton_append, List.map_cons,
            List.mem_cons]
          refine ⟨List.nodup_cons.mpr ⟨hnotin, ihnd⟩, ?_, ?_⟩
          · intro k hk
            rcases hk with hek | hk2
            · subst hek
              constructor
              · simp [lookupKey]
              · rw [ihout p.2 hnotin, setAttr_val_self]
            · have hke : k ≠ p.2 := fun e => hnotin (e ▸ hk2)
              have h3 := (ihlook k hk2).1
              rw [setAttr_val_ne o p.2 k false hke] at h3
              constructor
              · simp only [lookupKey]
                rw [if_neg fun e => hke e.symm]
                exact h3
              · exact (ihlook k hk2).2
          · intro k hk
            have hke : k ≠ p.2 := fun e => hk (Or.inl e)
            have hk2 : k ∉
                ((props.foldl (hideStep scene)
                  ([], setAttr o p.2 false)).1.map Prod.fst) :=
              fun hc => hk (Or.inr hc)
            rw [ihout k hk2, setAttr_val_ne o p.2 k false hke]
        · rw [hideStep_skip_present scene [] o p h2]
          exact ih hnd.2 o
      · rw [hideStep_skip_flag scene [] o p h1]
        exact ih hnd.2 o

theorem apply_hide_all (scene : Scene) (o : Overlay)
    (hs : scene.auto_hide_strategy = .ALL)
    (hp : o.present "show_overlays" = true) :
    apply_hide scene o = .ok ([("show_overlays", o.val "show_overlays")], true,
      setAttr o "show_overlays" false) := by
  unfold apply_hide
  rw [hs, hp]
  rfl

theorem apply_hide_all_absent (scene : Scene) (o : Overlay)
    (hs : scene.auto_hide_strategy = .ALL)
    (hp : o.present "show_overlays" = false) :
    apply_hide scene o = .error () := by
  unfold apply_hide
  rw [hs, hp]
  rfl

theorem apply_hide_custom (scene : Scene) (o : Overlay)
    (hs : scene.auto_hide_strategy = .CUSTOM) :
    apply_hide scene o =
      .ok ((properties_to_check.foldl (hideStep scene) ([], o)).1, false,
        (properties_to_check.foldl (hideStep scene) ([], o)).2) := by
  unfold apply_hide
  rw [hs]

/-- Claim C3: under the CUSTOM strategy, capture selects exactly the keys
whose scene flag is enabled and which exist on the overlay; each selected
key's prior value is recorded in the snapshot and the key is set to false;
disabled or absent keys never appear in the snapshot; the snapshot is
non-global. -/
theorem apply_hide_custom_spec (scene : Scene) (o : Overlay)
    (rd : List (String × Bool)) (rg : Bool) (o2 : Overlay)
    (hs : scene.auto_hide_strategy = .CUSTOM)
    (h : apply_hide scene o = .ok (rd, rg, o2)) :
    rg = false ∧
    (∀ k, k ∈ rd.map Prod.fst ↔
      ∃ p ∈ properties_to_check, p.2 = k ∧ p.1 scene = true ∧
        o.present k = true) ∧
    (∀ k, k ∈ rd.map Prod.fst →
      lookupKey k rd = some (o.val k) ∧ o2.val k = false) := by
  rw [apply_hide_custom scene o hs] at h
  simp only [Except.ok.injEq, Prod.mk.injEq] at h
  obtain ⟨h1, h2, h3⟩ := h
  subst h1
  subst h2
  subst h3
  obtain ⟨knd, klook, kout⟩ :=
    hideFold_custom_spec properties_to_check scene (by decide) o
  exact ⟨rfl, fun k => hideFold_mem_iff properties_to_check scene o k, klook⟩

/-- Witness for C3: Scenario B — only bones enabled, bones and text present,
capture picks exactly `show_bones`, records `true`, writes `false`. -/
theorem apply_hide_custom_spec_witness :
    sceneB.auto_hide_strategy = Strategy.CUSTOM ∧
    apply_hide sceneB oScenB = .ok ([("show_bones", true)], false,
      setAttr oScenB "show_bones" false) ∧
    lookupKey "show_bones" [("show_bones", true)] =
      some (oScenB.val "show_bones") ∧
    (setAttr oScenB "show_bones" false).val "show_bones" = false :=
  ⟨rfl, rfl,
    (apply_hide_custom_spec sceneB oScenB [("show_bones", true)] false
      (setAttr oScenB "show_bones" false) rfl rfl).2.2 "show_bones" (by simp)⟩

/-- Claim C10: immediately after a successful capture, every key present in
the returned snapshot reads false on the overlay — capture only ever writes
false. -/
theorem apply_hide_writes_false (scene : Scene) (o : Overlay)
    (rd : List (String × Bool)) (rg : Bool) (o2 : Overlay)
    (h : apply_hide scene o = .ok (rd, rg, o2)) :
    ∀ k ∈ rd.map Prod.fst, o2.val k = false := by
  cases hs : scene.auto_hide_strategy with
  | ALL =>
      cases hb : o.present "show_overlays" with
      | true =>
          rw [apply_hide_all scene o hs hb] at h
          simp only [Except.ok.injEq, Prod.mk.injEq] at h
          obtain ⟨h1, h2, h3⟩ := h
          subst h1
          subst h3
          intro k hk
          simp only [List.map_cons, List.map_nil, List.mem_singleton] at hk
          subst hk
          exact setAttr_val_self o "show_overlays" false
      | false =>
          rw [apply_hide_all_absent scene o hs hb] at h
          exact Except.noConfusion h
  | CUSTOM =>
      rw [apply_hide_custom scene o hs] at h
      simp only [Except.ok.injEq, Prod.mk.injEq] at h
      obtain ⟨h1, h2, h3⟩ := h
      subst h1
      subst h3
      intro k hk
      exact ((hideFold_custom_spec properties_to_check scene
        (by decide) o).2.1 k hk).2

/-- Witness for C10: ALL-strategy capture on a fully visible overlay. -/
theorem apply_hide_writes_false_witness :
    apply_hide sceneALL oTrue = .ok ([("show_overlays", true)], true,
      setAttr oTrue "show_overlays" false) ∧
    (setAttr oTrue "show_overlays" false).val "show_overlays" = false :=
  ⟨rfl, apply_hide_writes_false sceneALL oTrue [("show_overlays", true)] true
    (setAttr oTrue "show_overlays" false) rfl "show_overlays" (by simp)⟩

/-- Claim C4: under the ALL strategy (with the host-provided `show_overlays`
key present, as it always is in Blender), capture selects exactly
`show_overlays`, records its current value, writes false, returns a global
snapshot; restore of that snapshot puts the overlay back exactly. -/
theorem apply_hide_all_spec (scene : Scene) (o : Overlay)
    (hs : scene.auto_hide_strategy = .ALL)
    (hp : o.present "show_overlays" = true) :
    apply_hide scene o = .ok ([("show_overlays", o.val "show_overlays")], true,
      setAttr o "show_overlays" false) ∧
    apply_restore (setAttr o "show_overlays" false)
      [("show_overlays", o.val "show_overlays")] true = .ok o := by
  refine ⟨apply_hide_all scene o hs hp, ?_⟩
  rw [apply_restore_global_some (setAttr o "show_overlays" false)
      [("show_overlays", o.val "show_overlays")] (o.val "show_overlays")
      (by simp [lookupKey]),
    if_pos (show (setAttr o "show_overlays" false).present "show_overlays" = true
      from hp),
    setAttr_setAttr, setAttr_self_val]

/-- Witness for C4: Scenario A with `showOverlays = true`. -/
theorem apply_hide_all_spec_witness :
    sceneALL.auto_hide_strategy = Strategy.ALL ∧
    oTrue.present "show_overlays" = true ∧
    (apply_hide sceneALL oTrue = .ok ([("show_overlays",
        oTrue.val "show_overlays")], true, setAttr oTrue "show_overlays" false) ∧
     apply_restore (setAttr oTrue "show_overlays" false)
        [("show_overlays", oTrue.val "show_overlays")] true = .ok oTrue) :=
  ⟨rfl, rfl, apply_hide_all_spec sceneALL oTrue rfl rfl⟩

/-- Claim C1: a capture followed by a restore of the returned snapshot puts
every key present in the snapshot back to its pre-capture value, and leaves
every key not present in the snapshot exactly as the capture left it. -/
theorem capture_restore_round_trip (scene : Scene) (o : Overlay)
    (rd : List (String × Bool)) (rg : Bool) (o1 o2 : Overlay)
    (h1 : apply_hide scene o = .ok (rd, rg, o1))
    (h2 : apply_restore o1 rd rg = .ok o2) :
    (∀ k ∈ rd.map Prod.fst, o2.val k = o.val k) ∧
    (∀ k, k ∉ rd.map Prod.fst → o2.val k = o1.val k) := by
  cases hs : scene.auto_hide_strategy with
  | ALL =>
      cases hb : o.present "show_overlays" with
      | false =>
          rw [apply_hide_all_absent scene o hs hb] at h1
          exact Except.noConfusion h1
      | true =>
          rw [apply_hide_all scene o hs hb] at h1
          simp only [Except.ok.injEq, Prod.mk.injEq] at h1
          obtain ⟨e1, e2, e3⟩ := h1
          subst e1
          subst e2
          subst e3
          rw [apply_restore_global_some (setAttr o "show_overlays" false)
              [("show_overlays", o.val "show_overlays")] (o.val "show_overlays")
              (by simp [lookupKey]),
            if_pos (show (setAttr o "show_overlays" false).present "show_overlays"
              = true from hb)] at h2
          simp only [Except.ok.injEq] at h2
          subst h2
          constructor
          · intro k hk
            simp only [List.map_cons, List.map_nil, List.mem_singleton] at hk
            subst hk
            rw [setAttr_setAttr, setAttr_val_self]
          · intro k hk
            have hke : k ≠ "show_overlays" := by
              simp only [List.map_cons, List.map_nil, List.mem_singleton] at hk
              exact hk
            rw [setAttr_val_ne _ _ _ _ hke]
  | CUSTOM =>
      rw [apply_hide_custom scene o hs] at h1
      simp only [Except.ok.injEq, Prod.mk.injEq] at h1
      obtain ⟨e1, e2, e3⟩ := h1
      subst e1
      subst e2
      subst e3
      rw [apply_restore_custom] at h2
      simp only [Except.ok.injEq] at h2
      subst h2
      obtain ⟨knd, klook, kout⟩ :=
        hideFold_custom_spec properties_to_check scene (by decide) o
      constructor
      · intro k hk
        have hpres : o.present k = true := by
          obtain ⟨q, hq, eq2, eq1, ep⟩ :=
            (hideFold_mem_iff properties_to_check scene o k).mp hk
          exact ep
        rw [restoreFold_val, hideFold_present, hpres, if_pos rfl]
        exact lastVal_of_lookup _ k (o.val k) knd (klook k hk).1 _
      · intro k hk
        rw [restoreFold_val, hideFold_present, lastVal_not_mem _ k _ hk, ite_self]

/-- Witness for C1: ALL-strategy round trip on a fully visible overlay. -/
theorem capture_restore_round_trip_witness :
    apply_hide sceneALL oTrue = .ok ([("show_overlays", true)], true,
      setAttr oTrue "show_overlays" false) ∧
    apply_restore (setAttr oTrue "show_overlays" false) [("show_overlays", true)]
      true = .ok (setAttr (setAttr oTrue "show_overlays" false)
        "show_overlays" true) ∧
    (setAttr (setAttr oTrue "show_overlays" false) "show_overlays" true).val
      "show_overlays" = oTrue.val "show_overlays" :=
  ⟨rfl, rfl,
    (capture_restore_round_trip sceneALL oTrue [("show_overlays", true)] true
      (setAttr oTrue "show_overlays" false)
      (setAttr (setAttr oTrue "show_overlays" false) "show_overlays" true)
      rfl rfl).1 "show_overlays" (by simp)⟩

/-- Witness for C6: restoring the same single-key snapshot twice. -/
theorem apply_restore_idempotent_witness :
    apply_restore oTrue [("show_bones", false)] false =
      .ok (setAttr oTrue "show_bones" false) ∧
    apply_restore (setAttr oTrue "show_bones" false) [("show_bones", false)]
      false = .ok (setAttr oTrue "show_bones" false) :=
  ⟨rfl, apply_restore_idempotent oTrue [("show_bones", false)] false
    (setAttr oTrue "show_bones" false) rfl⟩
